import Mathlib

/-!
Verification development for the state-wide methane dashboard pipeline.

The source is Python (`comparison_engine.py`, `data_aggregator.py`,
`epa_ghg_explorer.py`).  We shallowly embed the dynamically typed values the
pipeline manipulates as an inductive `PyVal` (numbers are modelled as exact
rationals), and fallible Python code as `Except PyErr _` so that raised
exceptions (`TypeError`, `AttributeError`) are explicit values.
-/

namespace Methane

/-- A single-quote character (code point 39), used to build the
missing-data details string literally as the source does. -/
def sq : String := String.mk [Char.ofNat 39]

/-- Shallow embedding of the Python values flowing through the pipeline:
`None`, booleans, numbers (idealised as exact rationals), strings, lists and
string-keyed dicts (association lists in insertion order, keys unique). -/
inductive PyVal : Type where
  | none : PyVal
  | bool : Bool → PyVal
  | num : ℚ → PyVal
  | str : String → PyVal
  | list : List PyVal → PyVal
  | dict : List (String × PyVal) → PyVal

/-- Python exceptions that the embedded code can raise. -/
inductive PyErr : Type where
  | typeError : PyErr
  | attributeError : PyErr
deriving DecidableEq, Repr

/-- Numeric view: Python treats `bool` as a number (`True == 1`). -/
def pyNum? : PyVal → Option ℚ
  | .bool b => some (if b then 1 else 0)
  | .num q => some q
  | _ => Option.none

/-- Python truthiness: `None`, `False`, `0`, `""`, `[]`, `{}` are falsy. -/
def pyTruthy : PyVal → Bool
  | .none => false
  | .bool b => b
  | .num q => q != 0
  | .str s => s ≠ ""
  | .list xs => !xs.isEmpty
  | .dict xs => !xs.isEmpty

/-- Python `x or y` on values: `x` if truthy, else `y`. -/
def pyOr (a b : PyVal) : PyVal := if pyTruthy a then a else b

mutual

/-- Python `==`.  Numbers (including booleans) compare numerically, strings
and lists structurally; mixed kinds are unequal.  Dict equality is modelled
structurally over the (unique-keyed, insertion-ordered) pair list; the
pipeline only ever compares scalars and lists. -/
def pyEq : PyVal → PyVal → Bool
  | .none, .none => true
  | .bool a, .bool b => a == b
  | .bool a, .num q => (if a then (1 : ℚ) else 0) == q
  | .num q, .bool b => q == (if b then (1 : ℚ) else 0)
  | .num a, .num b => a == b
  | .str a, .str b => a == b
  | .list xs, .list ys => pyEqList xs ys
  | .dict xs, .dict ys => pyEqPairs xs ys
  | _, _ => false

/-- Pointwise equality of Python lists. -/
def pyEqList : List PyVal → List PyVal → Bool
  | [], [] => true
  | x :: xs, y :: ys => pyEq x y && pyEqList xs ys
  | _, _ => false

/-- Pointwise equality of dict pair lists. -/
def pyEqPairs : List (String × PyVal) → List (String × PyVal) → Bool
  | [], [] => true
  | (k, v) :: xs, (k2, v2) :: ys => k == k2 && pyEq v v2 && pyEqPairs xs ys
  | _, _ => false

end

mutual

/-- Python ordering comparison (`<`, `>`, `<=`, `>=`).  Numbers compare
numerically (booleans as 0/1), strings and lists lexicographically;
any other combination raises `TypeError`, as CPython does. -/
def pyCmp : PyVal → PyVal → Except PyErr Ordering
  | a, b =>
    match pyNum? a, pyNum? b with
    | some x, some y => .ok (compare x y)
    | _, _ =>
      match a, b with
      | .str s, .str t => .ok (compare s t)
      | .list xs, .list ys => pyCmpList xs ys
      | _, _ => .error .typeError

/-- Lexicographic list comparison: skip `==`-equal prefixes, then order by
the first differing elements; a strict prefix is smaller. -/
def pyCmpList : List PyVal → List PyVal → Except PyErr Ordering
  | [], [] => .ok .eq
  | [], _ :: _ => .ok .lt
  | _ :: _, [] => .ok .gt
  | x :: xs, y :: ys =>
    if pyEq x y then pyCmpList xs ys else pyCmp x y

end

/-- Contiguous-sublist test on character lists (Python `sub in s`). -/
def charSub (needle : List Char) : List Char → Bool
  | [] => needle.isEmpty
  | c :: t => needle.isPrefixOf (c :: t) || charSub needle t

/-- Python membership `a in c`: list membership via `==`; substring test
when both are strings; key membership for dicts; everything else raises
`TypeError` (non-iterable container, or non-string needle in a string). -/
def pyIn (a c : PyVal) : Except PyErr Bool :=
  match c with
  | .list xs => .ok (xs.any (pyEq a))
  | .str s =>
    match a with
    | .str t => .ok (charSub t.toList s.toList)
    | _ => .error .typeError
  | .dict xs => .ok (xs.any (fun kv => pyEq a (.str kv.1)))
  | _ => .error .typeError

/-- First-match lookup in a dict pair list (Python dict keys are unique). -/
def dLookup : List (String × PyVal) → String → Option PyVal
  | [], _ => Option.none
  | (k, v) :: rest, key => if k = key then some v else dLookup rest key

/-- Python `d.get(k, default)` on a known dict: the stored value if the key
is present (even if that value is `None`), else the default. -/
def dGetD (xs : List (String × PyVal)) (k : String) (d : PyVal) : PyVal :=
  (dLookup xs k).getD d

/-- Python `d.get(k)` on a known dict (default `None`). -/
def dGet (xs : List (String × PyVal)) (k : String) : PyVal :=
  dGetD xs k .none

/-- Python `v.get(k, d)` on an arbitrary value: raises `AttributeError`
unless `v` is a dict. -/
def pyGetAttrD (v : PyVal) (k : String) (d : PyVal) : Except PyErr PyVal :=
  match v with
  | .dict xs => .ok (dGetD xs k d)
  | _ => .error .attributeError

/-! ## Rule evaluation engine (`comparison_engine.py`) -/

/-- The flat fact map produced by `pre_process_facility_data`: a
string-keyed dict, kept as an insertion-ordered association list. -/
def Facts : Type := List (String × PyVal)

/-- `facility_data.get(key)`: the stored value, or `None` when the key is
absent — note a key stored with value `None` is indistinguishable from an
absent key through this accessor. -/
def factsGet (f : Facts) (k : String) : PyVal := dGet f k

/-- Python `key in facility_flat_data` (dict key membership). -/
def factsHasKey (f : Facts) (k : String) : Bool :=
  match f with
  | [] => false
  | (k2, _) :: rest => k2 = k || factsHasKey rest k

/-- A rule logic tree.  A dict carrying an `operator` key is a leaf
condition (`data_point` may be absent; `operator` and `value` are arbitrary
values); any other dict is an inner node with its `type` value (absent ⇒
`none`) and its `conditions` list (absent ⇒ `[]`). -/
inductive LogicBlock : Type where
  | cond (data_point : Option String) (operator : PyVal) (value : PyVal) : LogicBlock
  | node (type_ : Option String) (conditions : List LogicBlock) : LogicBlock

/-- `_evaluate_single_condition`: look up the fact; `None` (absent or
stored-as-`None`) short-circuits to `unknown` (`Option.none`); otherwise
dispatch on the operator string, defaulting to `False`.  Comparison and
membership operators inherit Python's `TypeError` behaviour. -/
def evalCondition (data_point : Option String) (operator value : PyVal)
    (facts : Facts) : Except PyErr (Option Bool) :=
  let actual := match data_point with
    | some k => factsGet facts k
    | Option.none => PyVal.none
  match actual with
  | .none => .ok Option.none
  | actual =>
    if pyEq operator (.str "==") then .ok (some (pyEq actual value))
    else if pyEq operator (.str "!=") then .ok (some (!pyEq actual value))
    else if pyEq operator (.str ">") then
      (pyCmp actual value).map (fun o => some (o == .gt))
    else if pyEq operator (.str "<") then
      (pyCmp actual value).map (fun o => some (o == .lt))
    else if pyEq operator (.str ">=") then
      (pyCmp actual value).map (fun o => some (o != .lt))
    else if pyEq operator (.str "<=") then
      (pyCmp actual value).map (fun o => some (o != .gt))
    else if pyEq operator (.str "IN") then
      (pyIn actual value).map some
    else .ok (some false)

mutual

/-- `_evaluate_logic_block`: a leaf evaluates its condition; an inner node
evaluates its children in order, short-circuiting to `unknown` on the first
`unknown` child, yields `False` on an empty result list, then combines with
`all` for `ALL`/`SINGLE`, `any` for `ANY`, and `False` otherwise. -/
def evalLogic : LogicBlock → Facts → Except PyErr (Option Bool)
  | .cond dp op v, f => evalCondition dp op v f
  | .node t cs, f =>
    match evalConds cs f with
    | .error e => .error e
    | .ok Option.none => .ok Option.none
    | .ok (some rs) =>
      if rs.isEmpty then .ok (some false)
      else if t = some "ALL" ∨ t = some "SINGLE" then .ok (some (rs.all id))
      else if t = some "ANY" then .ok (some (rs.any id))
      else .ok (some false)

/-- The child loop of `_evaluate_logic_block`: results collected in order;
the first `unknown` child aborts with `unknown` (`Option.none`). -/
def evalConds : List LogicBlock → Facts → Except PyErr (Option (List Bool))
  | [], _ => .ok (some [])
  | c :: cs, f =>
    match evalLogic c f with
    | .error e => .error e
    | .ok Option.none => .ok Option.none
    | .ok (some b) =>
      match evalConds cs f with
      | .error e => .error e
      | .ok Option.none => .ok Option.none
      | .ok (some bs) => .ok (some (b :: bs))

end

/-- A compliance rule.  Fields read with `rule[...]` in the source are
mandatory here; fields read with `rule.get(...)` are `Option`s (absent ⇒
`none`). -/
structure Rule : Type where
  rule_id : Option String
  component : Option String
  regulation : Option String
  automated_check_scope : Option String
  data_requirements : List String
  status_if_data_missing : String
  logic : LogicBlock
  output_if_compliant : String
  output_if_noncompliant : String

/-- A verdict dict.  `Option.none` models a Python `None` field value. -/
structure Verdict : Type where
  rule_id : Option String
  component : Option String
  regulation : Option String
  status : String
  details : String
  scope : Option String
deriving DecidableEq, Repr

/-- The details string of the missing-data-requirement verdict. -/
def missingKeyDetails (k : String) : String :=
  "Cannot check rule. Missing data for: " ++ sq ++ k ++ sq

/-- Generic details string when the logic tree itself came back `unknown`. -/
def unknownLogicDetails : String :=
  "Could not determine compliance due to missing data during logic evaluation."

/-- `run_compliance_check`: first scan `data_requirements` in order and
short-circuit on the first key absent from the flat facts (note: no `"N/A"`
defaults for `component`/`regulation` on this path); otherwise evaluate the
logic tree and map `unknown`/`True`/`False` to the three statuses. -/
def run_compliance_check (r : Rule) (f : Facts) : Except PyErr Verdict :=
  match r.data_requirements.find? (fun k => !factsHasKey f k) with
  | some k =>
    .ok { rule_id := r.rule_id, component := r.component,
          regulation := r.regulation, status := r.status_if_data_missing,
          details := missingKeyDetails k,
          scope := some (r.automated_check_scope.getD "N/A") }
  | Option.none =>
    match evalLogic r.logic f with
    | .error e => .error e
    | .ok res =>
      let sd : String × String :=
        match res with
        | Option.none => (r.status_if_data_missing, unknownLogicDetails)
        | some true => ("In Compliance", r.output_if_compliant)
        | some false => ("Out of Compliance", r.output_if_noncompliant)
      .ok { rule_id := r.rule_id, component := some (r.component.getD "N/A"),
            regulation := some (r.regulation.getD "N/A"), status := sd.1,
            details := sd.2,
            scope := some (r.automated_check_scope.getD "N/A") }

/-! ## Facility flattener (`pre_process_facility_data`) -/

/-- The `isinstance(facility_data, dict)` normalisation: non-dict inputs
are replaced by the empty dict. -/
def asDict (fd : PyVal) : List (String × PyVal) :=
  match fd with
  | .dict xs => xs
  | _ => []

/-- `facility_data.get(section) or default` (the top-level section access
pattern used throughout the flattener). -/
def sectionOr (fd : PyVal) (k : String) (d : PyVal) : PyVal :=
  pyOr (dGet (asDict fd) k) d

/-- The tank combined-totals section as the flattener sees it. -/
def tanksTotalsOf (fd : PyVal) : PyVal :=
  pyOr (dGet (asDict fd) "AtmosphericTanks_Combined_Totals") (.dict [])

/-- `sum(d.get('total_number', 0) for d in device_types if
isinstance(d, dict) and tok in d.get('device_type', ''))`, left to right;
a non-string `device_type` or non-numeric `total_number` raises
`TypeError` exactly where Python would. -/
def sumDeviceCounts (tok : String) : List PyVal → Except PyErr ℚ
  | [] => .ok 0
  | d :: rest =>
    match d with
    | .dict pairs =>
      match pyIn (.str tok) (dGetD pairs "device_type" (.str "")) with
      | .error e => .error e
      | .ok true =>
        match pyNum? (dGetD pairs "total_number" (.num 0)) with
        | some q => (sumDeviceCounts tok rest).map (fun s => q + s)
        | Option.none => .error .typeError
      | .ok false => sumDeviceCounts tok rest
    | _ => sumDeviceCounts tok rest

/-- The `isinstance(device_types, list)` branch around the three device
count sums (non-list ⇒ count 0). -/
def deviceCounts (dts : PyVal) (tok : String) : Except PyErr PyVal :=
  match dts with
  | .list ds => (sumDeviceCounts tok ds).map PyVal.num
  | _ => .ok (.num 0)

/-- `sum(l.get('ch4_emissions_mt', 0) for l in leaks if
isinstance(l, dict))`. -/
def sumLeaks : List PyVal → Except PyErr ℚ
  | [] => .ok 0
  | d :: rest =>
    match d with
    | .dict pairs =>
      match pyNum? (dGetD pairs "ch4_emissions_mt" (.num 0)) with
      | some q => (sumLeaks rest).map (fun s => q + s)
      | Option.none => .error .typeError
    | _ => sumLeaks rest

/-- The `isinstance(leaks, list)` branch (non-list ⇒ 0). -/
def leaksTotal (lv : PyVal) : Except PyErr PyVal :=
  match lv with
  | .list ls => (sumLeaks ls).map PyVal.num
  | _ => .ok (.num 0)

/-- The flat fact dict in the exact key insertion order of the source;
`completion_number_vented` repeats the `total_nonrec` value and
`unloading_number_venting_wells` is the literal `0`. -/
def mkFlat (p1 p2 p3 p4 p5 p6 p7 p8 p9 p10 p11 p12 p13 p14 p15 p16 p17 p18
    p19 p20 p21 p22 p23 p24 : PyVal) : Facts :=
  [("pneumatic_mt_ch4", p1),
   ("pneumatic_has_high_bleed", p2),
   ("pneumatic_has_intermittent", p3),
   ("pneumatic_has_low_bleed", p4),
   ("pneumatic_high_bleed_count", p5),
   ("pneumatic_intermittent_count", p6),
   ("pneumatic_low_bleed_count", p7),
   ("tank_storage_mt_ch4", p8),
   ("tank_count_vented", p9),
   ("tank_any_atmosphere_indicator", p10),
   ("tank_any_vru_indicator", p11),
   ("tank_any_flares_indicator", p12),
   ("completion_number_reduced", p13),
   ("completion_number_non_reduced", p14),
   ("completion_number_vented", p14),
   ("unloading_mt_ch4", p15),
   ("unloading_number_venting_wells", PyVal.num 0),
   ("recip_compressor_mt_ch4", p16),
   ("recip_compressors_count", p17),
   ("centrif_mt_ch4", p18),
   ("centrif_present", p19),
   ("associated_gas_mt_ch4", p20),
   ("flare_avg_efficiency", p21),
   ("flare_mt_ch4", p22),
   ("flare_count_monitors", p23),
   ("leaks_mt_ch4", p24)]

/-- The canonical fact keys, in insertion order. -/
def flatKeys : List String :=
  ["pneumatic_mt_ch4", "pneumatic_has_high_bleed", "pneumatic_has_intermittent",
   "pneumatic_has_low_bleed", "pneumatic_high_bleed_count",
   "pneumatic_intermittent_count", "pneumatic_low_bleed_count",
   "tank_storage_mt_ch4", "tank_count_vented", "tank_any_atmosphere_indicator",
   "tank_any_vru_indicator", "tank_any_flares_indicator",
   "completion_number_reduced", "completion_number_non_reduced",
   "completion_number_vented", "unloading_mt_ch4",
   "unloading_number_venting_wells", "recip_compressor_mt_ch4",
   "recip_compressors_count", "centrif_mt_ch4", "centrif_present",
   "associated_gas_mt_ch4", "flare_avg_efficiency", "flare_mt_ch4",
   "flare_count_monitors", "leaks_mt_ch4"]

/-- `tanks_totals.get('total_ch4_emissions_mt_reported') or
tanks_totals.get('total_ch4_emissions_mt', 0)` — the reported total wins
only when truthy, and the right operand is only evaluated when the left
is falsy (Python `or` short-circuit). -/
def tankStorageValue (tt : PyVal) : Except PyErr PyVal := do
  let rep ← pyGetAttrD tt "total_ch4_emissions_mt_reported" .none
  if pyTruthy rep then pure rep
  else pyGetAttrD tt "total_ch4_emissions_mt" (.num 0)

/-- `pre_process_facility_data`, statement for statement in source order.
Steps that can raise in Python (attribute access on a truthy non-dict
section, ill-typed entries inside the device/leak sums) are `Except`
binds, so an exception anywhere aborts with the same error Python
raises. -/
def pre_process_facility_data (facility_data : PyVal) : Except PyErr Facts := do
  let pneum := sectionOr facility_data "PneumaticDeviceVentingDetails" (.dict [])
  let p1 ← pyGetAttrD pneum "mt_ch4" (.num 0)
  let p2 ← pyGetAttrD pneum "has_high_bleed" (.bool false)
  let p3 ← pyGetAttrD pneum "has_intermittent" (.bool false)
  let p4 ← pyGetAttrD pneum "has_low_bleed" (.bool false)
  let dts0 ← pyGetAttrD pneum "device_types" .none
  let dts := pyOr dts0 (.list [])
  let p5 ← deviceCounts dts "high-bleed"
  let p6 ← deviceCounts dts "intermittent"
  let p7 ← deviceCounts dts "low-bleed"
  let tt := tanksTotalsOf facility_data
  let t12 ← pyGetAttrD
    (sectionOr facility_data "AtmosphericTanks_CalcMethod_1_2" (.dict []))
    "totals" .none
  let t12s := pyOr t12 (.dict [])
  let p8 ← tankStorageValue tt
  let p9 ← pyGetAttrD tt "uncontrolled_count" (.num 0)
  let p10 ← pyGetAttrD t12s "any_atmosphere_indicator" (.bool false)
  let p11 ← pyGetAttrD t12s "any_vru_indicator" (.bool false)
  let p12 ← pyGetAttrD t12s "any_flares_indicator" (.bool false)
  let comp0 ← pyGetAttrD
    (sectionOr facility_data "WellCompletionsWithHydraulicFracturingTabgSummary" (.dict []))
    "totals" .none
  let comps := pyOr comp0 (.dict [])
  let p13 ← pyGetAttrD comps "total_rec" (.num 0)
  let p14 ← pyGetAttrD comps "total_nonrec" (.num 0)
  let p15 ← pyGetAttrD (sectionOr facility_data "WellVentingDetails" (.dict []))
    "mt_ch4" (.num 0)
  let recip := sectionOr facility_data "ReciprocatingCompressorsDetails" (.dict [])
  let p16 ← pyGetAttrD recip "mt_ch4" (.num 0)
  let p17 ← pyGetAttrD recip "count" (.num 0)
  let centrif := sectionOr facility_data "CentrifugalCompressorsDetails" (.dict [])
  let p18 ← pyGetAttrD centrif "mt_ch4" (.num 0)
  let p19 ← pyGetAttrD centrif "present" (.bool false)
  let p20 ← pyGetAttrD
    (sectionOr facility_data "AssociatedGasVentingFlaringDetails" (.dict []))
    "mt_ch4" (.num 0)
  let flares := sectionOr facility_data "UniqueFlareStacks_Summary" (.dict [])
  let p21 ← pyGetAttrD flares "avg_flare_combustion_efficiency" (.num 0)
  let p22 ← pyGetAttrD flares "total_ch4_emissions_mt" (.num 0)
  let p23 ← pyGetAttrD flares "count_with_monitor_or_analyzer" (.num 0)
  let p24 ← leaksTotal
    (sectionOr facility_data "LeaksCalculatedWithCountsFactors_SummaryBySourceType" (.list []))
  pure (mkFlat p1 p2 p3 p4 p5 p6 p7 p8 p9 p10 p11 p12 p13 p14 p15 p16 p17
    p18 p19 p20 p21 p22 p23 p24)

/-! ## Batch aggregation (`data_aggregator.py`, `scrape_many`) -/

/-- Python 3 `round` to an integer: round half to even (on our exact
rationals). -/
def roundHalfEven (q : ℚ) : ℤ :=
  let f := ⌊q⌋
  let r := q - (f : ℚ)
  if r < 1 / 2 then f
  else if 1 / 2 < r then f + 1
  else if f % 2 = 0 then f else f + 1

/-- `round(q, 2)`. -/
def pyRound2 (q : ℚ) : ℚ := (roundHalfEven (q * 100) : ℚ) / 100

/-- `round(q, 1)`. -/
def pyRound1 (q : ℚ) : ℚ := (roundHalfEven (q * 10) : ℚ) / 10

/-- The fixed `(section, field)` list of `calculate_total_methane`. -/
def methaneSources : List (String × String) :=
  [("PneumaticDeviceVentingDetails", "mt_ch4"),
   ("WellVentingDetails", "mt_ch4"),
   ("AssociatedGasVentingFlaringDetails", "mt_ch4"),
   ("CentrifugalCompressorsDetails", "mt_ch4"),
   ("ReciprocatingCompressorsDetails", "mt_ch4"),
   ("UniqueFlareStacks_Summary", "total_ch4_emissions_mt"),
   ("WellsWithFracturingDetails", "mt_ch4"),
   ("WellsWithoutFracturingDetails", "mt_ch4"),
   ("AtmosphericTanks_Summary", "mt_ch4")]

/-- One step of `total += (ghg_data.get(source) or {}).get(field, 0) or 0`;
a truthy non-dict section raises `AttributeError`, a truthy non-numeric
field value raises `TypeError` at the `+=`. -/
def addSource (fd : PyVal) (total : ℚ) (sf : String × String) :
    Except PyErr ℚ := do
  let v ← pyGetAttrD (sectionOr fd sf.1 (.dict [])) sf.2 (.num 0)
  match pyNum? (pyOr v (.num 0)) with
  | some q => pure (total + q)
  | Option.none => .error .typeError

/-- The leak loop of `calculate_total_methane`
(`total += leak.get("ch4_emissions_mt", 0) or 0` over dict entries). -/
def addLeaks (total : ℚ) : List PyVal → Except PyErr ℚ
  | [] => .ok total
  | d :: rest =>
    match d with
    | .dict pairs =>
      match pyNum? (pyOr (dGetD pairs "ch4_emissions_mt" (.num 0)) (.num 0)) with
      | some q => addLeaks (total + q) rest
      | Option.none => .error .typeError
    | _ => addLeaks total rest

/-- `calculate_total_methane` (the debug `print` has no effect on the
value and is omitted). -/
def calculate_total_methane (ghg_data : PyVal) : Except PyErr ℚ := do
  let t1 ← methaneSources.foldlM (addSource ghg_data) 0
  let t2 ← match sectionOr ghg_data
      "LeaksCalculatedWithCountsFactors_SummaryBySourceType" (.list []) with
    | .list ls => addLeaks t1 ls
    | _ => pure t1
  pure (pyRound2 t2)

/-- Accumulator of the per-facility loop in `generate_real_county_data`. -/
structure AggState : Type where
  methane : ℚ
  checked : Nat
  compliant : Nat
  critical : Nat
  processed : Nat
deriving DecidableEq, Repr

/-- The starting accumulator (all counters zero). -/
def initAgg : AggState := ⟨0, 0, 0, 0, 0⟩

/-- The inner rulebook loop: counts rules whose status is one of
`"In Compliance"`/`"Out of Compliance"`, the compliant ones among them,
and whether any checked rule was out of compliance. -/
def rulesFold (rb : List Rule) (flat : Facts) :
    Except PyErr (Nat × Nat × Bool) :=
  rb.foldlM (fun acc r => do
    let v ← run_compliance_check r flat
    if v.status = "In Compliance" ∨ v.status = "Out of Compliance" then
      pure (acc.1 + 1,
        (if v.status = "In Compliance" then acc.2.1 + 1 else acc.2.1),
        (acc.2.2 || !(v.status = "In Compliance")))
    else pure acc) (0, 0, false)

/-- One iteration of the facility loop: skip on `"error" in ghg_data`,
otherwise add the facility's methane, flatten, run every rule and fold the
counters in. -/
def processFacility (rb : List Rule) (st : AggState) (d : PyVal) :
    Except PyErr AggState := do
  let hasErr ← pyIn (.str "error") d
  if hasErr then pure st
  else do
    let m ← calculate_total_methane d
    let flat ← pre_process_facility_data d
    let t ← rulesFold rb flat
    pure { methane := st.methane + m,
           checked := st.checked + t.1,
           compliant := st.compliant + t.2.1,
           critical := st.critical + (if t.2.2 then 1 else 0),
           processed := st.processed + 1 }

/-- The per-facility error record `scrape_many` stores when a fetch
raises. -/
def errRecord (fid : Nat) (year : Nat) (e : String) : PyVal :=
  .dict [("facility_id", .num fid), ("year", .num year), ("error", .str e)]

/-- The value `scrape_many` stores for one facility: the fetched record,
or the error record if the fetch raised. -/
def fetched (fetch : Nat → Except String PyVal) (year fid : Nat) : PyVal :=
  match fetch fid with
  | .ok d => d
  | .error e => errRecord fid year e

/-- `scrape_many`: fetch each id (the fetcher is an injected collaborator);
an exception becomes the per-facility error record.  The shared results
dict, keyed by facility id and filled in completion order, is modelled as
an association list in submission order — the aggregation below folds it
with order-insensitive sums and counts. -/
def scrape_many (fetch : Nat → Except String PyVal) (ids : List Nat)
    (year : Nat) : List (Nat × PyVal) :=
  ids.map (fun fid => (fid, fetched fetch year fid))

/-- The facility loop of `generate_real_county_data` as a fold. -/
def batchFold (rb : List Rule) (facs : List (Nat × PyVal)) :
    Except PyErr AggState :=
  facs.foldlM (fun st p => processFacility rb st p.2) initAgg

/-- The summary record returned by `generate_real_county_data`. -/
structure CountySummary : Type where
  facilities : Nat
  methane_emissions : ℤ
  avg_compliance : ℚ
  critical_facilities : Nat
  economic_impact : ℚ
deriving DecidableEq, Repr

/-- Step 5–6 of `generate_real_county_data`: the guarded compliance ratio
and the rounded figures. -/
def mkSummary (st : AggState) : CountySummary :=
  { facilities := st.processed,
    methane_emissions := roundHalfEven st.methane,
    avg_compliance :=
      if st.checked > 0 then (st.compliant : ℚ) / (st.checked : ℚ) else 0,
    critical_facilities := st.critical,
    economic_impact := pyRound1 (st.methane * (2 / 10000)) }

/-- `generate_real_county_data`, with the fetcher and the loaded rulebook
(read from disk by `load_all_rules` in the source) as parameters. -/
def generate_real_county_data (fetch : Nat → Except String PyVal)
    (ids : List Nat) (rb : List Rule) : Except PyErr CountySummary :=
  (batchFold rb (scrape_many fetch ids 2023)).map mkSummary

/-! ## Section aggregators (`epa_ghg_explorer.py`)

A row is modelled by the values its `first_of(...)` extractions produce —
per-row pure lookups over the XML element, so the aggregation over rows is
faithfully a fold over these extracted values.  Numeric fields already
carry the `or 0.0` coercion the source applies at extraction; floats are
idealised as exact rationals. -/

/-- One `OnshoreProductionRequirementsSubBasinRowDetails` row as
`parse_onshore_production_wells` extracts it. -/
structure OPWRow : Type where
  sub_basin : Option String
  county : Option String
  formation : Option String
  wells_eoy : ℚ
  wells_acq : ℚ
  wells_div : ℚ
  wells_comp : ℚ
  wells_rem : ℚ
deriving DecidableEq, Repr

/-- The facility-wide `totals` accumulator of
`parse_onshore_production_wells`. -/
structure OPWTotals : Type where
  total_wells_producing_eoy : ℚ
  total_wells_acquired : ℚ
  total_wells_divested : ℚ
  total_wells_completed : ℚ
  total_wells_removed : ℚ
deriving DecidableEq, Repr

/-- The zero-initialised totals. -/
def opwInit : OPWTotals := ⟨0, 0, 0, 0, 0⟩

/-- The `totals[...] += ...` block of the row loop. -/
def opwStep (t : OPWTotals) (r : OPWRow) : OPWTotals :=
  { total_wells_producing_eoy := t.total_wells_producing_eoy + r.wells_eoy,
    total_wells_acquired := t.total_wells_acquired + r.wells_acq,
    total_wells_divested := t.total_wells_divested + r.wells_div,
    total_wells_completed := t.total_wells_completed + r.wells_comp,
    total_wells_removed := t.total_wells_removed + r.wells_rem }

/-- The facility totals of `parse_onshore_production_wells`. -/
def opwTotals (rows : List OPWRow) : OPWTotals :=
  rows.foldl opwStep opwInit

/-- One `AtmosphericTanksCalculationMethodOneOrTwoSubBasinRowDetails` row
as `parse_atmos_tanks_calc_1_2` extracts it (summed fields post
`or 0.0`; indicator and range fields keep their `None` state). -/
structure TankRow12 : Type where
  method : Option String
  software : Option String
  n_sep : ℚ
  cnt_vru : ℚ
  cnt_flr : ℚ
  flr_co2 : ℚ
  flr_ch4 : ℚ
  flr_n2o : ℚ
  vol_oil : ℚ
  reco2 : ℚ
  rech4 : ℚ
  vr_co2 : ℚ
  vr_ch4 : ℚ
  tank_cnt : ℚ
  not_pad : ℚ
  min_ch4 : Option ℚ
  max_ch4 : Option ℚ
  min_co2 : Option ℚ
  max_co2 : Option ℚ
  any_vru : Option Bool
  any_atm : Option Bool
  any_flr : Option Bool
  delay : Option Bool
deriving DecidableEq, Repr

/-- The facility-wide `totals` accumulator of
`parse_atmos_tanks_calc_1_2` (sets as `Finset`, ranges as `Option`). -/
structure TankTotals12 : Type where
  num_wellhead_separators : ℚ
  count_vru_control : ℚ
  count_flaring_control : ℚ
  tank_count : ℚ
  not_on_well_pad_tank_count : ℚ
  flaring_co2_mt : ℚ
  flaring_ch4_mt : ℚ
  flaring_n2o_mt : ℚ
  annual_co2_recovered_mt : ℚ
  annual_ch4_recovered_mt : ℚ
  vapor_recovery_co2_emissions_mt : ℚ
  vapor_recovery_ch4_emissions_mt : ℚ
  total_volume_oil_bbl : ℚ
  any_vru_indicator : Bool
  any_atmosphere_indicator : Bool
  any_flares_indicator : Bool
  two_year_delay_any : Bool
  calc_methodologies : Finset String
  software_used : Finset String
  min_flash_ch4_frac : Option ℚ
  max_flash_ch4_frac : Option ℚ
  min_flash_co2_frac : Option ℚ
  max_flash_co2_frac : Option ℚ

/-- The zero/empty/undefined initial totals. -/
def tankInit : TankTotals12 :=
  ⟨0, 0, 0, 0, 0, 0, 0, 0, 0, 0, 0, 0, 0, false, false, false, false,
   ∅, ∅, Option.none, Option.none, Option.none, Option.none⟩

/-- `if totals[k] is None: totals[k] = v; else totals[k] = min(totals[k], v)`
(skipping `None` row values). -/
def updMin (cur v : Option ℚ) : Option ℚ :=
  match v with
  | Option.none => cur
  | some x =>
    match cur with
    | Option.none => some x
    | some c => some (min c x)

/-- The `max` counterpart of `updMin`. -/
def updMax (cur v : Option ℚ) : Option ℚ :=
  match v with
  | Option.none => cur
  | some x =>
    match cur with
    | Option.none => some x
    | some c => some (max c x)

/-- `if s: totals[...].add(s)` — Python string truthiness guards the set
insert. -/
def insTruthy (s : Option String) (acc : Finset String) : Finset String :=
  match s with
  | some m => if m = "" then acc else insert m acc
  | Option.none => acc

/-- The `# facility totals` block of the `parse_atmos_tanks_calc_1_2` row
loop: sums, OR-accumulated flags (`is True` checks), truthy set inserts
and the facility-wide min/max ranges. -/
def tankStep (t : TankTotals12) (r : TankRow12) : TankTotals12 :=
  { num_wellhead_separators := t.num_wellhead_separators + r.n_sep,
    count_vru_control := t.count_vru_control + r.cnt_vru,
    count_flaring_control := t.count_flaring_control + r.cnt_flr,
    tank_count := t.tank_count + r.tank_cnt,
    not_on_well_pad_tank_count := t.not_on_well_pad_tank_count + r.not_pad,
    flaring_co2_mt := t.flaring_co2_mt + r.flr_co2,
    flaring_ch4_mt := t.flaring_ch4_mt + r.flr_ch4,
    flaring_n2o_mt := t.flaring_n2o_mt + r.flr_n2o,
    annual_co2_recovered_mt := t.annual_co2_recovered_mt + r.reco2,
    annual_ch4_recovered_mt := t.annual_ch4_recovered_mt + r.rech4,
    vapor_recovery_co2_emissions_mt := t.vapor_recovery_co2_emissions_mt + r.vr_co2,
    vapor_recovery_ch4_emissions_mt := t.vapor_recovery_ch4_emissions_mt + r.vr_ch4,
    total_volume_oil_bbl := t.total_volume_oil_bbl + r.vol_oil,
    any_vru_indicator := t.any_vru_indicator || (r.any_vru = some true),
    any_atmosphere_indicator := t.any_atmosphere_indicator || (r.any_atm = some true),
    any_flares_indicator := t.any_flares_indicator || (r.any_flr = some true),
    two_year_delay_any := t.two_year_delay_any || (r.delay = some true),
    calc_methodologies := insTruthy r.method t.calc_methodologies,
    software_used := insTruthy r.software t.software_used,
    min_flash_ch4_frac := updMin t.min_flash_ch4_frac r.min_ch4,
    max_flash_ch4_frac := updMax t.max_flash_ch4_frac r.max_ch4,
    min_flash_co2_frac := updMin t.min_flash_co2_frac r.min_co2,
    max_flash_co2_frac := updMax t.max_flash_co2_frac r.max_co2 }

/-- The facility totals of `parse_atmos_tanks_calc_1_2`. -/
def tankTotals12 (rows : List TankRow12) : TankTotals12 :=
  rows.foldl tankStep tankInit

/-- The thirteen summed fields of the tank method-1/2 totals. -/
structure TankSums : Type where
  num_wellhead_separators : ℚ
  count_vru_control : ℚ
  count_flaring_control : ℚ
  tank_count : ℚ
  not_on_well_pad_tank_count : ℚ
  flaring_co2_mt : ℚ
  flaring_ch4_mt : ℚ
  flaring_n2o_mt : ℚ
  annual_co2_recovered_mt : ℚ
  annual_ch4_recovered_mt : ℚ
  vapor_recovery_co2_emissions_mt : ℚ
  vapor_recovery_ch4_emissions_mt : ℚ
  total_volume_oil_bbl : ℚ
deriving DecidableEq, Repr

/-- Projection of the totals onto their summed fields. -/
def tankSumsOf (t : TankTotals12) : TankSums :=
  ⟨t.num_wellhead_separators, t.count_vru_control, t.count_flaring_control,
   t.tank_count, t.not_on_well_pad_tank_count, t.flaring_co2_mt,
   t.flaring_ch4_mt, t.flaring_n2o_mt, t.annual_co2_recovered_mt,
   t.annual_ch4_recovered_mt, t.vapor_recovery_co2_emissions_mt,
   t.vapor_recovery_ch4_emissions_mt, t.total_volume_oil_bbl⟩

/-! ## Helper lemmas -/

/-- Inversion for a successful `Except` bind. -/
theorem exceptBind_ok {ε α β : Type} {e : Except ε α} {k : α → Except ε β}
    {b : β} (h : e >>= k = .ok b) : ∃ a, e = .ok a ∧ k a = .ok b := by
  cases e with
  | error err => simp [Bind.bind, Except.bind] at h
  | ok a => exact ⟨a, rfl, h⟩

/-- Inversion for a successful `Except.map`. -/
theorem exceptMap_ok {ε α β : Type} {e : Except ε α} {g : α → β} {b : β}
    (h : Except.map g e = .ok b) : ∃ a, e = .ok a ∧ g a = b := by
  cases e with
  | error err => simp [Except.map] at h
  | ok a => exact ⟨a, rfl, by simpa [Except.map] using h⟩

/-! ## C1 — missing data requirement short-circuits the check -/

/-- C1: if some key of `r.data_requirements` is absent from the flat
facts, `run_compliance_check` returns (for every logic tree, so the tree
is never consulted) the verdict whose status is `r.status_if_data_missing`
and whose details name the first missing requirement key. -/
theorem run_compliance_check_missing_requirement (r : Rule) (f : Facts)
    (h : ∃ k ∈ r.data_requirements, factsHasKey f k = false) :
    ∃ k0, r.data_requirements.find? (fun k => !factsHasKey f k) = some k0 ∧
      factsHasKey f k0 = false ∧
      ∀ l : LogicBlock, run_compliance_check { r with logic := l } f =
        .ok { rule_id := r.rule_id, component := r.component,
              regulation := r.regulation, status := r.status_if_data_missing,
              details := missingKeyDetails k0,
              scope := some (r.automated_check_scope.getD "N/A") } := by
  obtain ⟨k, hk, hmiss⟩ := h
  have hsome : (r.data_requirements.find? (fun k => !factsHasKey f k)).isSome := by
    rw [List.find?_isSome]
    exact ⟨k, hk, by simp [hmiss]⟩
  obtain ⟨k0, hk0⟩ := Option.isSome_iff_exists.mp hsome
  refine ⟨k0, hk0, ?_, ?_⟩
  · have := List.find?_some hk0
    simpa using this
  · intro l
    simp only [run_compliance_check, hk0]

/-- Concrete rule used by the C1 witness: requires `a` and `b`. -/
def wRuleC1 : Rule :=
  { rule_id := some "R1", component := some "Storage Tanks",
    regulation := some "OOOOb", automated_check_scope := Option.none,
    data_requirements := ["a", "b"],
    status_if_data_missing := "Data Missing",
    logic := .cond (some "a") (.str ">") (.num 1),
    output_if_compliant := "ok", output_if_noncompliant := "bad" }

/-- Concrete facts for the C1 witness: key `a` absent. -/
def wFactsC1 : Facts := [("b", .num 1)]

/-- C1 witness: the short-circuit verdict at a concrete rule and fact map
missing requirement `a`. -/
theorem run_compliance_check_missing_requirement_witness :
    run_compliance_check wRuleC1 wFactsC1 =
      .ok { rule_id := some "R1", component := some "Storage Tanks",
            regulation := some "OOOOb", status := "Data Missing",
            details := missingKeyDetails "a", scope := some "N/A" } := by
  obtain ⟨k0, hk0, -, hall⟩ :=
    run_compliance_check_missing_requirement wRuleC1 wFactsC1
      ⟨"a", by simp [wRuleC1], rfl⟩
  have hk0' : k0 = "a" := by
    have h2 : wRuleC1.data_requirements.find?
        (fun k => !factsHasKey wFactsC1 k) = some "a" := rfl
    rw [hk0] at h2
    exact Option.some.inj h2
  subst hk0'
  exact hall wRuleC1.logic

/-! ## C2 — `unknown` poisons a logic node; empty nodes are `false` -/

/-- The per-child evaluation results of a node, in order, with no
exception and no short-circuit: the specification device for stating the
node-combination semantics. -/
def evalEach : List LogicBlock → Facts → Except PyErr (List (Option Bool))
  | [], _ => .ok []
  | c :: cs, f =>
    match evalLogic c f with
    | .error e => .error e
    | .ok r =>
      match evalEach cs f with
      | .error e => .error e
      | .ok rs => .ok (r :: rs)

/-- The source's child loop agrees with the per-child results: it yields
`unknown` iff some child does, else the list of child booleans. -/
theorem evalConds_of_evalEach (cs : List LogicBlock) (f : Facts)
    (rs : List (Option Bool)) (h : evalEach cs f = .ok rs) :
    evalConds cs f = .ok
      (if Option.none ∈ rs then Option.none
       else some (rs.map (fun r => r.getD false))) := by
  induction cs generalizing rs with
  | nil =>
    simp only [evalEach] at h
    cases h
    simp [evalConds]
  | cons c cs ih =>
    simp only [evalEach] at h
    cases h1 : evalLogic c f with
    | error e => rw [h1] at h; cases h
    | ok r =>
      rw [h1] at h
      cases h2 : evalEach cs f with
      | error e => rw [h2] at h; cases h
      | ok rs' =>
        rw [h2] at h
        cases h
        cases r with
        | none => simp [evalConds, h1]
        | some b =>
          simp only [evalConds, h1, ih rs' h2]
          by_cases hmem : Option.none ∈ rs'
          · simp [hmem]
          · simp [hmem]

/-- `all` over a mapped list of option-booleans. -/
theorem all_map_getD (l : List (Option Bool)) :
    (l.map (fun r => r.getD false)).all id = l.all (fun r => r.getD false) := by
  induction l with
  | nil => rfl
  | cons x xs ih => simp [ih]

/-- `any` over a mapped list of option-booleans. -/
theorem any_map_getD (l : List (Option Bool)) :
    (l.map (fun r => r.getD false)).any id = l.any (fun r => r.getD false) := by
  induction l with
  | nil => rfl
  | cons x xs ih => simp [ih]

/-- C2 amended: for a node of type `ALL`, `SINGLE` or `ANY` whose children
all evaluate (without raising) to the results `rs`, the node is `unknown`
as soon as any child is `unknown` — regardless of the sibling values —
and otherwise combines with conjunction (`ALL`/`SINGLE`) or disjunction
(`ANY`), except that a node with no children yields `false` (not the
empty conjunction `true`). -/
theorem evalLogic_node_semantics (t : Option String)
    (ht : t = some "ALL" ∨ t = some "SINGLE" ∨ t = some "ANY")
    (cs : List LogicBlock) (f : Facts) (rs : List (Option Bool))
    (h : evalEach cs f = .ok rs) :
    evalLogic (.node t cs) f = .ok
      (if Option.none ∈ rs then Option.none
       else if rs.isEmpty then some false
       else if t = some "ANY" then some (rs.any (fun r => r.getD false))
       else some (rs.all (fun r => r.getD false))) := by
  have hc := evalConds_of_evalEach cs f rs h
  by_cases hmem : Option.none ∈ rs
  · simp only [evalLogic, hc, hmem, if_true]
  · rw [if_neg hmem] at hc
    simp only [evalLogic, hc, hmem, if_false]
    rcases rs with _ | ⟨r, rs'⟩
    · simp
    · rcases ht with h1 | h1 | h1 <;> subst h1 <;>
        simp [all_map_getD, any_map_getD]

/-- C2 counterexample: an `ALL` node with an empty `conditions` list has
no `unknown` child, yet evaluates to `false` while the conjunction of its
(zero) children is `true`. -/
theorem evalLogic_empty_all_counterexample :
    evalLogic (.node (some "ALL") []) [] = .ok (some false) ∧
    ([] : List Bool).all id = true :=
  ⟨rfl, rfl⟩

/-- A condition on an absent fact (`unknown`), for the C2 witness. -/
def cUnknownC2 : LogicBlock := .cond (some "missing") (.str "==") (.num 1)

/-- A condition that evaluates to `true`, for the C2 witness. -/
def cTrueC2 : LogicBlock := .cond (some "x") (.str "==") (.num 1)

/-- C2 witness: an `ANY` node with an `unknown` child is `unknown` even
though a sibling is `true`. -/
theorem evalLogic_node_semantics_witness :
    evalLogic (.node (some "ANY") [cUnknownC2, cTrueC2]) [("x", .num 1)] =
      .ok Option.none := by
  have h := evalLogic_node_semantics (some "ANY") (Or.inr (Or.inr rfl))
    [cUnknownC2, cTrueC2] [("x", .num 1)] [Option.none, some true] rfl
  simpa using h

/-! ## C3 — `IN` with a non-list rule value raises instead of failing closed -/

/-- C3: at the condition `{data_point: "x", operator: "IN", value: 26000}`
over facts `{"x": 5}` the fact value is present and the rule value is not
a list, and condition evaluation raises `TypeError` (Python: argument of
type `int` is not iterable) — it does not fail closed to `false` and it
does not map the edge case to a verdict status. -/
theorem evalCondition_in_nonlist_raises :
    evalCondition (some "x") (.str "IN") (.num 26000) [("x", .num 5)] =
      .error .typeError := rfl

/-! ## C5 — verdict metadata echoing and `"N/A"` defaults -/

/-- A rule with absent `component`/`regulation` metadata and an
unsatisfiable data requirement, for the C5 counterexample. -/
def c5Rule : Rule :=
  { rule_id := Option.none, component := Option.none,
    regulation := Option.none, automated_check_scope := Option.none,
    data_requirements := ["k"], status_if_data_missing := "Data Missing",
    logic := .node Option.none [], output_if_compliant := "c",
    output_if_noncompliant := "n" }

/-- C5 counterexample: on the missing-data-requirement path the verdict
carries `None` (not `"N/A"`) for the absent `component` and `regulation`
fields — only `scope` is defaulted there. -/
theorem run_compliance_check_missing_path_counterexample :
    run_compliance_check c5Rule [] =
      .ok { rule_id := Option.none, component := Option.none,
            regulation := Option.none, status := "Data Missing",
            details := missingKeyDetails "k", scope := some "N/A" } ∧
    (Option.none : Option String) ≠ some "N/A" :=
  ⟨rfl, by simp⟩

/-- C5 amended: every verdict echoes `rule_id` (never defaulted) and
`scope` (always defaulted to `"N/A"` when absent); `component` and
`regulation` are defaulted to `"N/A"` only on the logic-evaluation path,
while the missing-data-requirement path echoes them undefaulted. -/
theorem run_compliance_check_metadata_defaults (r : Rule) (f : Facts)
    (v : Verdict) (h : run_compliance_check r f = .ok v) :
    v.rule_id = r.rule_id ∧
    v.scope = some (r.automated_check_scope.getD "N/A") ∧
    ((∀ k ∈ r.data_requirements, factsHasKey f k = true) →
      v.component = some (r.component.getD "N/A") ∧
      v.regulation = some (r.regulation.getD "N/A")) ∧
    ((∃ k ∈ r.data_requirements, factsHasKey f k = false) →
      v.component = r.component ∧ v.regulation = r.regulation) := by
  unfold run_compliance_check at h
  cases hfind : r.data_requirements.find? (fun k => !factsHasKey f k) with
  | some k =>
    rw [hfind] at h
    cases h
    refine ⟨rfl, rfl, ?_, fun _ => ⟨rfl, rfl⟩⟩
    intro hall
    have hk := List.mem_of_find?_eq_some hfind
    have hpred := List.find?_some hfind
    rw [hall k hk] at hpred
    simp at hpred
  | none =>
    rw [hfind] at h
    cases hev : evalLogic r.logic f with
    | error e => rw [hev] at h; cases h
    | ok res =>
      rw [hev] at h
      cases h
      refine ⟨rfl, rfl, fun _ => ⟨rfl, rfl⟩, ?_⟩
      rintro ⟨k, hk, hmiss⟩
      have := List.find?_eq_none.mp hfind k hk
      simp [hmiss] at this

/-- Rule for the C5 witness: no data requirements, `component` absent. -/
def c5wRule : Rule :=
  { rule_id := some "R9", component := Option.none,
    regulation := some "Part 98", automated_check_scope := some "full",
    data_requirements := [], status_if_data_missing := "Data Missing",
    logic := .node Option.none [], output_if_compliant := "c",
    output_if_noncompliant := "n" }

/-- The verdict the C5 witness rule produces. -/
def c5wVerdict : Verdict :=
  { rule_id := some "R9", component := some "N/A",
    regulation := some "Part 98", status := "Out of Compliance",
    details := "n", scope := some "full" }

/-- C5 witness: at a concrete rule whose requirements are all present,
the absent `component` is defaulted to `"N/A"`. -/
theorem run_compliance_check_metadata_defaults_witness :
    run_compliance_check c5wRule [] = .ok c5wVerdict ∧
    c5wVerdict.component = some (c5wRule.component.getD "N/A") := by
  have h : run_compliance_check c5wRule [] = .ok c5wVerdict := rfl
  exact ⟨h, ((run_compliance_check_metadata_defaults c5wRule [] c5wVerdict h).2.2.1
    (by intro k hk; cases hk)).1⟩

/-! ## Inversion of a successful flattener run (shared by C4 and C8) -/

/-- Inversion of a successful `tankStorageValue`: the receiver was a
dict, so both gets succeed, and the result is the truthy-reported /
computed choice. -/
theorem tankStorageValue_ok (tt v : PyVal) (h : tankStorageValue tt = .ok v) :
    ∃ rep comp,
      pyGetAttrD tt "total_ch4_emissions_mt_reported" PyVal.none = .ok rep ∧
      pyGetAttrD tt "total_ch4_emissions_mt" (.num 0) = .ok comp ∧
      v = (if pyTruthy rep then rep else comp) := by
  unfold tankStorageValue at h
  obtain ⟨rep, hrep, h⟩ := exceptBind_ok h
  cases tt with
  | dict xs =>
    refine ⟨rep, dGetD xs "total_ch4_emissions_mt" (.num 0), hrep, rfl, ?_⟩
    by_cases htr : pyTruthy rep = true
    · rw [if_pos htr]
      rw [if_pos htr] at h
      exact ((Except.ok.inj h)).symm
    · rw [if_neg htr]
      rw [if_neg htr] at h
      simp only [pyGetAttrD] at h
      exact (Except.ok.inj h).symm
  | none => simp [pyGetAttrD] at hrep
  | bool b => simp [pyGetAttrD] at hrep
  | num q => simp [pyGetAttrD] at hrep
  | str s => simp [pyGetAttrD] at hrep
  | list xs => simp [pyGetAttrD] at hrep

/-- Whenever `pre_process_facility_data` returns a flat map, its key list
is the canonical one, and the `tank_storage_mt_ch4` fact is the truthy
reported tank CH4 total if any, else the computed total (default 0). -/
theorem pre_process_ok_inv (fd : PyVal) (flat : Facts)
    (h : pre_process_facility_data fd = .ok flat) :
    flat.map Prod.fst = flatKeys ∧
    ∃ rep comp,
      pyGetAttrD (tanksTotalsOf fd) "total_ch4_emissions_mt_reported"
        PyVal.none = .ok rep ∧
      pyGetAttrD (tanksTotalsOf fd) "total_ch4_emissions_mt" (.num 0) =
        .ok comp ∧
      factsGet flat "tank_storage_mt_ch4" = (if pyTruthy rep then rep else comp) := by
  unfold pre_process_facility_data at h
  obtain ⟨p1, hp1, h⟩ := exceptBind_ok h
  obtain ⟨p2, hp2, h⟩ := exceptBind_ok h
  obtain ⟨p3, hp3, h⟩ := exceptBind_ok h
  obtain ⟨p4, hp4, h⟩ := exceptBind_ok h
  obtain ⟨dts0, hdts0, h⟩ := exceptBind_ok h
  obtain ⟨p5, hp5, h⟩ := exceptBind_ok h
  obtain ⟨p6, hp6, h⟩ := exceptBind_ok h
  obtain ⟨p7, hp7, h⟩ := exceptBind_ok h
  obtain ⟨t12, ht12, h⟩ := exceptBind_ok h
  obtain ⟨p8, hp8, h⟩ := exceptBind_ok h
  obtain ⟨p9, hp9, h⟩ := exceptBind_ok h
  obtain ⟨p10, hp10, h⟩ := exceptBind_ok h
  obtain ⟨p11, hp11, h⟩ := exceptBind_ok h
  obtain ⟨p12, hp12, h⟩ := exceptBind_ok h
  obtain ⟨comp0, hcomp0, h⟩ := exceptBind_ok h
  obtain ⟨p13, hp13, h⟩ := exceptBind_ok h
  obtain ⟨p14, hp14, h⟩ := exceptBind_ok h
  obtain ⟨p15, hp15, h⟩ := exceptBind_ok h
  obtain ⟨p16, hp16, h⟩ := exceptBind_ok h
  obtain ⟨p17, hp17, h⟩ := exceptBind_ok h
  obtain ⟨p18, hp18, h⟩ := exceptBind_ok h
  obtain ⟨p19, hp19, h⟩ := exceptBind_ok h
  obtain ⟨p20, hp20, h⟩ := exceptBind_ok h
  obtain ⟨p21, hp21, h⟩ := exceptBind_ok h
  obtain ⟨p22, hp22, h⟩ := exceptBind_ok h
  obtain ⟨p23, hp23, h⟩ := exceptBind_ok h
  obtain ⟨p24, hp24, h⟩ := exceptBind_ok h
  have hflat : flat = mkFlat p1 p2 p3 p4 p5 p6 p7 p8 p9 p10 p11 p12 p13 p14
      p15 p16 p17 p18 p19 p20 p21 p22 p23 p24 :=
    (Except.ok.inj h).symm
  subst hflat
  refine ⟨rfl, ?_⟩
  obtain ⟨rep, comp, hrep, hcomp, hv⟩ := tankStorageValue_ok _ _ hp8
  refine ⟨rep, comp, hrep, hcomp, ?_⟩
  have hget : factsGet
      (mkFlat p1 p2 p3 p4 p5 p6 p7 p8 p9 p10 p11 p12 p13 p14 p15 p16 p17
        p18 p19 p20 p21 p22 p23 p24) "tank_storage_mt_ch4" = p8 := rfl
  rw [hget, hv]

/-! ## C4 — reported tank CH4 total vs computed total -/

/-- Facility data whose combined tank totals report a CH4 total of `0`
alongside a computed total of `5`. -/
def c4fd : PyVal :=
  .dict [("AtmosphericTanks_Combined_Totals",
    .dict [("total_ch4_emissions_mt_reported", .num 0),
           ("total_ch4_emissions_mt", .num 5)])]

/-- C4 counterexample: with a present reported total of `0`, the
flattened `tank_storage_mt_ch4` fact is the computed total `5`, not the
reported `0` — presence alone does not take precedence. -/
theorem tank_storage_reported_zero_counterexample :
    (pre_process_facility_data c4fd).map
        (fun fl => factsGet fl "tank_storage_mt_ch4") = .ok (.num 5) ∧
    PyVal.num 5 ≠ PyVal.num 0 := by
  refine ⟨rfl, fun hc => ?_⟩
  injection hc with h5
  norm_num at h5

/-- C4 amended: whenever the flattener returns, `tank_storage_mt_ch4`
equals the facility-reported CH4 total when that value is present and
truthy (in particular nonzero), and otherwise the computed
`total_ch4_emissions_mt` (default 0) — a reported `0` (or other falsy
value) falls back to the computed total. -/
theorem tank_storage_prefers_truthy_reported (fd : PyVal) (flat : Facts)
    (h : pre_process_facility_data fd = .ok flat) :
    ∃ rep comp,
      pyGetAttrD (tanksTotalsOf fd) "total_ch4_emissions_mt_reported"
        PyVal.none = .ok rep ∧
      pyGetAttrD (tanksTotalsOf fd) "total_ch4_emissions_mt" (.num 0) =
        .ok comp ∧
      factsGet flat "tank_storage_mt_ch4" =
        (if pyTruthy rep then rep else comp) :=
  (pre_process_ok_inv fd flat h).2

/-- Facility data with a truthy reported total `7` and computed total
`5`, for the C4 witness. -/
def c4wfd : PyVal :=
  .dict [("AtmosphericTanks_Combined_Totals",
    .dict [("total_ch4_emissions_mt_reported", .num 7),
           ("total_ch4_emissions_mt", .num 5)])]

/-- The flat map produced from `c4wfd` (all defaults except the tank
storage fact). -/
def c4wFlat : Facts :=
  mkFlat (.num 0) (.bool false) (.bool false) (.bool false) (.num 0)
    (.num 0) (.num 0) (.num 7) (.num 0) (.bool false) (.bool false)
    (.bool false) (.num 0) (.num 0) (.num 0) (.num 0) (.num 0) (.num 0)
    (.bool false) (.num 0) (.num 0) (.num 0) (.num 0) (.num 0)

/-- C4 witness: the truthy reported total `7` wins over the computed
total `5`. -/
theorem tank_storage_prefers_truthy_reported_witness :
    pre_process_facility_data c4wfd = .ok c4wFlat ∧
    factsGet c4wFlat "tank_storage_mt_ch4" = .num 7 := by
  have hpp : pre_process_facility_data c4wfd = .ok c4wFlat := rfl
  obtain ⟨rep, comp, h1, h2, h3⟩ :=
    tank_storage_prefers_truthy_reported c4wfd c4wFlat hpp
  have hrep : rep = .num 7 := by
    have h1c : pyGetAttrD (tanksTotalsOf c4wfd)
        "total_ch4_emissions_mt_reported" PyVal.none = .ok (.num 7) := rfl
    rw [h1] at h1c
    exact Except.ok.inj h1c
  subst hrep
  refine ⟨hpp, ?_⟩
  rw [h3]
  rfl

/-! ## C8 — domain of the flat fact map -/

/-- C8 amended: whenever `pre_process_facility_data` returns at all, the
returned flat map's key list is exactly the canonical key list (so its
domain is constant across facilities); a truthy non-dict section value
instead raises before any map is returned. -/
theorem pre_process_keys (fd : PyVal) (flat : Facts)
    (h : pre_process_facility_data fd = .ok flat) :
    flat.map Prod.fst = flatKeys :=
  (pre_process_ok_inv fd flat h).1

/-- C8 counterexample: a malformed (truthy non-dict) section makes the
flattener raise `AttributeError` — it does not return a flat map at
all. -/
theorem pre_process_malformed_section_counterexample :
    pre_process_facility_data
        (.dict [("PneumaticDeviceVentingDetails", .num 1)]) =
      .error .attributeError := rfl

/-- The flat map produced from inputs where every section is absent. -/
def defaultFlat : Facts :=
  mkFlat (.num 0) (.bool false) (.bool false) (.bool false) (.num 0)
    (.num 0) (.num 0) (.num 0) (.num 0) (.bool false) (.bool false)
    (.bool false) (.num 0) (.num 0) (.num 0) (.num 0) (.num 0) (.num 0)
    (.bool false) (.num 0) (.num 0) (.num 0) (.num 0) (.num 0)

/-- C8 witness: a non-dict input yields the all-defaults flat map, whose
key list is the canonical one. -/
theorem pre_process_keys_witness :
    pre_process_facility_data (.num 7) = .ok defaultFlat ∧
    defaultFlat.map Prod.fst = flatKeys := by
  have h : pre_process_facility_data (.num 7) = .ok defaultFlat := rfl
  exact ⟨h, pre_process_keys (.num 7) defaultFlat h⟩

/-! ## C9 — `None` fact values degrade to `unknown` at condition level -/

/-- Facility data whose pneumatics section is present but carries a null
`mt_ch4`. -/
def c9fd : PyVal :=
  .dict [("PneumaticDeviceVentingDetails", .dict [("mt_ch4", PyVal.none)])]

/-- Rule requiring (and comparing) `pneumatic_mt_ch4`. -/
def c9Rule : Rule :=
  { rule_id := some "R2", component := Option.none,
    regulation := Option.none, automated_check_scope := Option.none,
    data_requirements := ["pneumatic_mt_ch4"],
    status_if_data_missing := "Data Insufficient",
    logic := .cond (some "pneumatic_mt_ch4") (.str ">") (.num 10),
    output_if_compliant := "c", output_if_noncompliant := "n" }

/-- The flat map flattened from `c9fd`: `pneumatic_mt_ch4` is present
with value `None`. -/
def c9Flat : Facts :=
  mkFlat PyVal.none (.bool false) (.bool false) (.bool false) (.num 0)
    (.num 0) (.num 0) (.num 0) (.num 0) (.bool false) (.bool false)
    (.bool false) (.num 0) (.num 0) (.num 0) (.num 0) (.num 0) (.num 0)
    (.bool false) (.num 0) (.num 0) (.num 0) (.num 0) (.num 0)

/-- C9: a condition whose fact lookup yields `None` — whether the key is
absent or present with value `None` — evaluates to `unknown`; and
concretely, a facility whose pneumatics section carries a null `mt_ch4`
flattens to a map that passes the key-membership step of
`run_compliance_check` yet still ends in the missing-data status via the
`unknown` logic result (with the generic details string, not the
missing-key one). -/
theorem evalCondition_none_is_unknown (dp : String) (op v : PyVal)
    (f : Facts) (h : factsGet f dp = PyVal.none) :
    evalCondition (some dp) op v f = .ok Option.none ∧
    pre_process_facility_data c9fd = .ok c9Flat ∧
    factsHasKey c9Flat "pneumatic_mt_ch4" = true ∧
    run_compliance_check c9Rule c9Flat =
      .ok { rule_id := some "R2", component := some "N/A",
            regulation := some "N/A", status := "Data Insufficient",
            details := unknownLogicDetails, scope := some "N/A" } := by
  refine ⟨?_, rfl, rfl, rfl⟩
  simp only [evalCondition, h]

/-- C9 witness: a key present with value `None` (not merely absent)
yields `unknown`. -/
theorem evalCondition_none_is_unknown_witness :
    evalCondition (some "k") (.str ">") (.num 1) [("k", PyVal.none)] =
      .ok Option.none :=
  (evalCondition_none_is_unknown "k" (.str ">") (.num 1)
    [("k", PyVal.none)] rfl).1

/-! ## C7 — order independence of aggregator sums -/

/-- The onshore-wells totals fold is the componentwise sum of the per-row
contributions. -/
theorem opw_foldl_eq (rows : List OPWRow) (t : OPWTotals) :
    rows.foldl opwStep t =
      ⟨t.total_wells_producing_eoy + (rows.map OPWRow.wells_eoy).sum,
       t.total_wells_acquired + (rows.map OPWRow.wells_acq).sum,
       t.total_wells_divested + (rows.map OPWRow.wells_div).sum,
       t.total_wells_completed + (rows.map OPWRow.wells_comp).sum,
       t.total_wells_removed + (rows.map OPWRow.wells_rem).sum⟩ := by
  induction rows generalizing t with
  | nil => cases t; simp
  | cons r rs ih =>
    rw [List.foldl_cons, ih]
    simp [opwStep, add_assoc]

/-- The summed fields of the tank method-1/2 totals fold are the
componentwise sums of the per-row contributions. -/
theorem tank_foldl_sums (rows : List TankRow12) (t : TankTotals12) :
    tankSumsOf (rows.foldl tankStep t) =
      ⟨t.num_wellhead_separators + (rows.map TankRow12.n_sep).sum,
       t.count_vru_control + (rows.map TankRow12.cnt_vru).sum,
       t.count_flaring_control + (rows.map TankRow12.cnt_flr).sum,
       t.tank_count + (rows.map TankRow12.tank_cnt).sum,
       t.not_on_well_pad_tank_count + (rows.map TankRow12.not_pad).sum,
       t.flaring_co2_mt + (rows.map TankRow12.flr_co2).sum,
       t.flaring_ch4_mt + (rows.map TankRow12.flr_ch4).sum,
       t.flaring_n2o_mt + (rows.map TankRow12.flr_n2o).sum,
       t.annual_co2_recovered_mt + (rows.map TankRow12.reco2).sum,
       t.annual_ch4_recovered_mt + (rows.map TankRow12.rech4).sum,
       t.vapor_recovery_co2_emissions_mt + (rows.map TankRow12.vr_co2).sum,
       t.vapor_recovery_ch4_emissions_mt + (rows.map TankRow12.vr_ch4).sum,
       t.total_volume_oil_bbl + (rows.map TankRow12.vol_oil).sum⟩ := by
  induction rows generalizing t with
  | nil => simp [tankSumsOf]
  | cons r rs ih =>
    rw [List.foldl_cons, ih]
    simp [tankStep, tankSumsOf, add_assoc]

/-- C7: the summed totals of both cited section aggregators
(`parse_onshore_production_wells`, whose facility totals are all sums,
and `parse_atmos_tanks_calc_1_2`, restricted to its thirteen summed
fields) are invariant under any permutation of the input rows. -/
theorem aggregator_totals_perm_invariant (rows rows' : List OPWRow)
    (trs trs' : List TankRow12) (h1 : rows.Perm rows')
    (h2 : trs.Perm trs') :
    opwTotals rows = opwTotals rows' ∧
    tankSumsOf (tankTotals12 trs) = tankSumsOf (tankTotals12 trs') := by
  constructor
  · unfold opwTotals
    rw [opw_foldl_eq, opw_foldl_eq]
    simp only [OPWTotals.mk.injEq]
    exact ⟨by rw [(h1.map _).sum_eq], by rw [(h1.map _).sum_eq],
      by rw [(h1.map _).sum_eq], by rw [(h1.map _).sum_eq],
      by rw [(h1.map _).sum_eq]⟩
  · unfold tankTotals12
    rw [tank_foldl_sums, tank_foldl_sums]
    simp only [TankSums.mk.injEq]
    refine ⟨?_, ?_, ?_, ?_, ?_, ?_, ?_, ?_, ?_, ?_, ?_, ?_, ?_⟩ <;>
      rw [(h2.map _).sum_eq]

/-- Concrete onshore-wells rows for the C7 witness. -/
def opwA : OPWRow := ⟨some "A", Option.none, some "shale", 1, 2, 3, 4, 5⟩

/-- Second concrete onshore-wells row. -/
def opwB : OPWRow := ⟨some "B", Option.none, Option.none, 10, 0, 0, 1, 0⟩

/-- Third concrete onshore-wells row. -/
def opwC : OPWRow := ⟨Option.none, some "Kern", Option.none, 7, 1, 0, 0, 2⟩

/-- Concrete tank method-1/2 row for the C7 witness. -/
def tankA : TankRow12 :=
  ⟨some "Method 1", Option.none, 1, 2, 3, 4, 5, 6, 7, 8, 9, 10, 11, 12, 13,
   some 1, Option.none, Option.none, some 2, some true, Option.none,
   some false, Option.none⟩

/-- Second concrete tank method-1/2 row. -/
def tankB : TankRow12 :=
  ⟨Option.none, some "sw", 2, 0, 1, 0, 7, 0, 0, 3, 0, 0, 5, 1, 0,
   Option.none, some 4, Option.none, Option.none, Option.none, some true,
   Option.none, some false⟩

/-- C7 witness: processing rows `[a, b, c]` yields the same summed totals
as `[c, a, b]`. -/
theorem aggregator_totals_perm_invariant_witness :
    opwTotals [opwA, opwB, opwC] = opwTotals [opwC, opwA, opwB] ∧
    tankSumsOf (tankTotals12 [tankA, tankB]) =
      tankSumsOf (tankTotals12 [tankB, tankA]) :=
  aggregator_totals_perm_invariant [opwA, opwB, opwC] [opwC, opwA, opwB]
    [tankA, tankB] [tankB, tankA] (by decide) (by decide)

/-! ## C6 — fetch failures are contained per facility -/

/-- Whether the injected fetcher succeeds for a facility id. -/
def fetchOk (fetch : Nat → Except String PyVal) (fid : Nat) : Bool :=
  match fetch fid with
  | .ok _ => true
  | .error _ => false

/-- Processing a `scrape_many` error record is a no-op on the
accumulator: the facility is skipped. -/
theorem processFacility_errRecord (rb : List Rule) (st : AggState)
    (fid year : Nat) (e : String) :
    processFacility rb st (errRecord fid year e) = .ok st := rfl

/-- Reduction of a bind on a success value. -/
theorem exceptOk_bind {ε α β : Type} (a : α) (k : α → Except ε β) :
    (Except.ok a : Except ε α) >>= k = k a := rfl

/-- Reduction of a bind on an error value. -/
theorem exceptErr_bind {ε α β : Type} (e : ε) (k : α → Except ε β) :
    (Except.error e : Except ε α) >>= k = Except.error e := rfl

/-- `pure` on `Except` is `ok`. -/
theorem exceptPure_eq_ok {ε α : Type} (a : α) :
    (pure a : Except ε α) = Except.ok a := rfl

/-- A successful fetch is stored as fetched. -/
theorem fetched_ok (fetch : Nat → Except String PyVal) (year fid : Nat)
    (d : PyVal) (h : fetch fid = .ok d) : fetched fetch year fid = d := by
  simp [fetched, h]

/-- A failed fetch is stored as the error record. -/
theorem fetched_error (fetch : Nat → Except String PyVal) (year fid : Nat)
    (e : String) (h : fetch fid = .error e) :
    fetched fetch year fid = errRecord fid year e := by
  simp [fetched, h]

/-- `scrape_many` on the empty batch. -/
theorem scrape_many_nil (fetch : Nat → Except String PyVal) (year : Nat) :
    scrape_many fetch [] year = [] := rfl

/-- `scrape_many` unfolds one facility at a time. -/
theorem scrape_many_cons (fetch : Nat → Except String PyVal)
    (fid : Nat) (rest : List Nat) (year : Nat) :
    scrape_many fetch (fid :: rest) year =
      (fid, fetched fetch year fid) :: scrape_many fetch rest year := rfl

/-- A successfully processed non-error facility bumps `processed` by
exactly one. -/
theorem processFacility_ok_processed (rb : List Rule) (st0 st1 : AggState)
    (d : PyVal) (hnoerr : pyIn (.str "error") d = .ok false)
    (h : processFacility rb st0 d = .ok st1) :
    st1.processed = st0.processed + 1 := by
  unfold processFacility at h
  rw [hnoerr, exceptOk_bind] at h
  rw [if_neg (by simp)] at h
  obtain ⟨m, hm, h⟩ := exceptBind_ok h
  obtain ⟨flat, hflat, h⟩ := exceptBind_ok h
  obtain ⟨t, ht, h⟩ := exceptBind_ok h
  have h2 := (Except.ok.inj h).symm
  rw [h2]

/-- The facility fold ignores failed fetches: folding the full batch is
folding the successfully fetched sub-batch. -/
theorem batchFold_filter_ok (fetch : Nat → Except String PyVal)
    (rb : List Rule) (ids : List Nat) (st : AggState) :
    (scrape_many fetch ids 2023).foldlM
        (fun st p => processFacility rb st p.2) st =
      (scrape_many fetch (ids.filter (fetchOk fetch)) 2023).foldlM
        (fun st p => processFacility rb st p.2) st := by
  induction ids generalizing st with
  | nil => rfl
  | cons fid rest ih =>
    cases hf : fetch fid with
    | ok d =>
      have hkeep : (fid :: rest).filter (fetchOk fetch) =
          fid :: rest.filter (fetchOk fetch) := by
        rw [List.filter_cons, if_pos (by simp [fetchOk, hf])]
      rw [hkeep, scrape_many_cons, scrape_many_cons]
      simp only [List.foldlM_cons]
      rw [fetched_ok fetch 2023 fid d hf]
      cases hp : processFacility rb st d with
      | error e => rw [exceptErr_bind, exceptErr_bind]
      | ok st2 =>
        rw [exceptOk_bind, exceptOk_bind]
        exact ih st2
    | error e =>
      have hdrop : (fid :: rest).filter (fetchOk fetch) =
          rest.filter (fetchOk fetch) := by
        rw [List.filter_cons, if_neg (by simp [fetchOk, hf])]
      rw [hdrop, scrape_many_cons]
      simp only [List.foldlM_cons]
      rw [fetched_error fetch 2023 fid e hf, processFacility_errRecord,
        exceptOk_bind]
      exact ih st

/-- A successful facility fold counts exactly the successfully fetched,
non-error-keyed facilities into `processed`. -/
theorem batchFold_processed (fetch : Nat → Except String PyVal)
    (rb : List Rule) (ids : List Nat) (st0 st : AggState)
    (hok : ∀ fid ∈ ids, ∀ d, fetch fid = .ok d →
      pyIn (.str "error") d = .ok false)
    (h : (scrape_many fetch ids 2023).foldlM
        (fun st p => processFacility rb st p.2) st0 = .ok st) :
    st.processed = st0.processed + (ids.filter (fetchOk fetch)).length := by
  induction ids generalizing st0 with
  | nil =>
    rw [scrape_many_nil, List.foldlM_nil] at h
    have h2 := Except.ok.inj h
    rw [← h2]
    simp
  | cons fid rest ih =>
    cases hf : fetch fid with
    | error e =>
      have hdrop : (fid :: rest).filter (fetchOk fetch) =
          rest.filter (fetchOk fetch) := by
        rw [List.filter_cons, if_neg (by simp [fetchOk, hf])]
      rw [hdrop]
      rw [scrape_many_cons] at h
      simp only [List.foldlM_cons] at h
      rw [fetched_error fetch 2023 fid e hf, processFacility_errRecord,
        exceptOk_bind] at h
      exact ih st0 (fun k hk => hok k (List.mem_cons_of_mem _ hk)) h
    | ok d =>
      have hkeep : (fid :: rest).filter (fetchOk fetch) =
          fid :: rest.filter (fetchOk fetch) := by
        rw [List.filter_cons, if_pos (by simp [fetchOk, hf])]
      rw [hkeep]
      rw [scrape_many_cons] at h
      simp only [List.foldlM_cons] at h
      rw [fetched_ok fetch 2023 fid d hf] at h
      obtain ⟨st1, hst1, hrest⟩ := exceptBind_ok h
      have hnoerr := hok fid (List.mem_cons_self _ _) d hf
      have hp1 := processFacility_ok_processed rb st0 st1 d hnoerr hst1
      have hp2 := ih st1 (fun k hk => hok k (List.mem_cons_of_mem _ hk)) hrest
      rw [hp2, hp1, List.length_cons]
      omega

/-- C6: a facility whose fetch raises is stored as a per-facility error
record, the batch still succeeds, the summary counts exactly the
successfully fetched facilities, and the whole summary (methane total and
compliance ratio included) equals the one computed from the successful
sub-batch alone — the failed facility contributes nothing. -/
theorem generate_skips_failed_fetches (fetch : Nat → Except String PyVal)
    (ids : List Nat) (rb : List Rule) (s : CountySummary)
    (hok : ∀ fid ∈ ids, ∀ d, fetch fid = .ok d →
      pyIn (.str "error") d = .ok false)
    (h : generate_real_county_data fetch ids rb = .ok s) :
    s.facilities = (ids.filter (fetchOk fetch)).length ∧
    generate_real_county_data fetch (ids.filter (fetchOk fetch)) rb = .ok s ∧
    (∀ fid ∈ ids, ∀ e, fetch fid = .error e →
      (fid, errRecord fid 2023 e) ∈ scrape_many fetch ids 2023) := by
  unfold generate_real_county_data at h ⊢
  obtain ⟨st, hst, hmk⟩ := exceptMap_ok h
  refine ⟨?_, ?_, ?_⟩
  · have := batchFold_processed fetch rb ids initAgg st hok hst
    rw [← hmk]
    simpa [mkSummary, initAgg] using this
  · unfold batchFold at hst ⊢
    rw [← batchFold_filter_ok fetch rb ids initAgg, hst]
    rw [← hmk]
    rfl
  · intro fid hfid e hf
    rw [← fetched_error fetch 2023 fid e hf]
    exact List.mem_map_of_mem _ hfid

/-- Rounding `0` yields `0`. -/
theorem roundHalfEven_zero : roundHalfEven 0 = 0 := by
  unfold roundHalfEven
  norm_num

/-- `round(0, 2) = 0`. -/
theorem pyRound2_zero : pyRound2 0 = 0 := by
  unfold pyRound2
  rw [show ((0 : ℚ) * 100) = 0 by ring, roundHalfEven_zero]
  norm_num

/-- `round(0, 1) = 0`. -/
theorem pyRound1_zero : pyRound1 0 = 0 := by
  unfold pyRound1
  rw [show ((0 : ℚ) * 10) = 0 by ring, roundHalfEven_zero]
  norm_num

/-- A methane source step over an all-absent record adds nothing. -/
theorem addSource_emptyDict (total : ℚ) (sf : String × String) :
    addSource (.dict []) total sf = .ok total := by
  have h : addSource (.dict []) total sf = .ok (total + 0) := rfl
  rw [h, add_zero]

/-- The methane source fold over an all-absent record is the identity. -/
theorem methaneSources_fold (t : ℚ) :
    methaneSources.foldlM (addSource (.dict [])) t = .ok t := by
  simp only [methaneSources, List.foldlM_cons, List.foldlM_nil,
    addSource_emptyDict, exceptOk_bind, exceptPure_eq_ok]

/-- `calculate_total_methane` of the empty record is `0`. -/
theorem calculate_total_methane_emptyDict :
    calculate_total_methane (.dict []) = .ok 0 := by
  have h1 : calculate_total_methane (.dict []) =
      (methaneSources.foldlM (addSource (.dict [])) 0 >>= fun t1 =>
        addLeaks t1 [] >>= fun t2 => pure (pyRound2 t2)) := rfl
  rw [h1, methaneSources_fold, exceptOk_bind,
    show addLeaks (0 : ℚ) [] = .ok 0 from rfl, exceptOk_bind,
    pyRound2_zero]
  rfl

/-- Processing the empty facility record (under a rulebook that checks
no rule on the all-defaults flat map) only bumps `processed`. -/
theorem processFacility_emptyDict (rb : List Rule) (st : AggState)
    (hrb : rulesFold rb defaultFlat = .ok (0, 0, false)) :
    processFacility rb st (.dict []) =
      .ok ⟨st.methane, st.checked, st.compliant, st.critical,
        st.processed + 1⟩ := by
  unfold processFacility
  rw [show pyIn (.str "error") (.dict []) = .ok false from rfl, exceptOk_bind]
  rw [if_neg (by simp)]
  rw [calculate_total_methane_emptyDict, exceptOk_bind]
  rw [show pre_process_facility_data (.dict []) = .ok defaultFlat from rfl,
    exceptOk_bind]
  rw [hrb, exceptOk_bind]
  have h2 : (⟨st.methane + 0, st.checked + 0, st.compliant + 0,
      st.critical + (if false then 1 else 0), st.processed + 1⟩ : AggState) =
      ⟨st.methane, st.checked, st.compliant, st.critical,
        st.processed + 1⟩ := by
    simp
  exact congrArg Except.ok h2

/-- The fetcher of the C6 witness: facility 2 times out, 1 and 3 return
an empty record. -/
def wFetch : Nat → Except String PyVal := fun fid =>
  if fid = 2 then .error "timeout" else .ok (.dict [])

/-- The summary of the C6 witness batch. -/
def wSummary : CountySummary := ⟨2, 0, 0, 0, 0⟩

/-- C6 witness: a batch of 3 facility ids with one fetch failure yields
`facilities == 2`. -/
theorem generate_skips_failed_fetches_witness :
    generate_real_county_data wFetch [1, 2, 3] [] = .ok wSummary ∧
    wSummary.facilities = 2 := by
  have hf1 : fetched wFetch 2023 1 = .dict [] := rfl
  have hf2 : fetched wFetch 2023 2 = errRecord 2 2023 "timeout" := rfl
  have hf3 : fetched wFetch 2023 3 = .dict [] := rfl
  have hpf : ∀ st : AggState, processFacility [] st (.dict []) =
      .ok ⟨st.methane, st.checked, st.compliant, st.critical,
        st.processed + 1⟩ :=
    fun st => processFacility_emptyDict [] st rfl
  have hb : batchFold [] (scrape_many wFetch [1, 2, 3] 2023) =
      .ok ⟨0, 0, 0, 0, 2⟩ := by
    unfold batchFold
    rw [scrape_many_cons, scrape_many_cons, scrape_many_cons, scrape_many_nil]
    simp only [List.foldlM_cons, List.foldlM_nil, hf1, hf2, hf3, hpf,
      processFacility_errRecord, exceptOk_bind, exceptPure_eq_ok, initAgg]
  have hg : generate_real_county_data wFetch [1, 2, 3] [] = .ok wSummary := by
    unfold generate_real_county_data
    rw [hb]
    have hmk : mkSummary ⟨0, 0, 0, 0, 2⟩ = wSummary := by
      simp [mkSummary, wSummary, roundHalfEven_zero, pyRound1_zero]
    rw [show Except.map mkSummary (Except.ok ⟨0, 0, 0, 0, 2⟩ :
        Except PyErr AggState) = .ok (mkSummary ⟨0, 0, 0, 0, 2⟩) from rfl,
      hmk]
  have hok : ∀ fid ∈ [1, 2, 3], ∀ d, wFetch fid = .ok d →
      pyIn (.str "error") d = .ok false := by
    intro fid hfid d hd
    fin_cases hfid
    · cases Except.ok.inj hd; rfl
    · exact absurd hd (by simp [wFetch])
    · cases Except.ok.inj hd; rfl
  have hmain := generate_skips_failed_fetches wFetch [1, 2, 3] [] wSummary hok hg
  refine ⟨hg, ?_⟩
  rw [hmain.1]
  rfl

/-! ## C10 — the compliance ratio is guarded against zero checked rules -/

/-- C10: whenever the batch state ends with zero rules counted as
checked, the summary is still produced and its `avg_compliance` is `0` —
the `compliant/checked` division sits behind a `checked > 0` guard. -/
theorem avg_compliance_guarded (fetch : Nat → Except String PyVal)
    (ids : List Nat) (rb : List Rule) (st : AggState)
    (h : batchFold rb (scrape_many fetch ids 2023) = .ok st)
    (hz : st.checked = 0) :
    generate_real_county_data fetch ids rb = .ok (mkSummary st) ∧
    (mkSummary st).avg_compliance = 0 := by
  constructor
  · unfold generate_real_county_data
    rw [h]
    rfl
  · simp [mkSummary, hz]

/-- The fetcher of the C10 witness (always an empty record). -/
def c10Fetch : Nat → Except String PyVal := fun _ => .ok (.dict [])

/-- A rule whose data requirement no flat map satisfies. -/
def c10Rule : Rule :=
  { rule_id := some "R10", component := Option.none,
    regulation := Option.none, automated_check_scope := Option.none,
    data_requirements := ["absent_fact"],
    status_if_data_missing := "Review Required",
    logic := .cond (some "absent_fact") (.str "<") (.num 3),
    output_if_compliant := "c", output_if_noncompliant := "n" }

/-- The batch state of the C10 witness: one facility processed, zero
rules checked. -/
def c10St : AggState := ⟨0, 0, 0, 0, 1⟩

/-- C10 witness: one facility whose single rule lands on the
missing-data status ⇒ zero rules checked, `avg_compliance = 0` (no
division-by-zero failure). -/
theorem avg_compliance_guarded_witness :
    generate_real_county_data c10Fetch [5] [c10Rule] =
      .ok (mkSummary c10St) ∧ (mkSummary c10St).avg_compliance = 0 := by
  have hf5 : fetched c10Fetch 2023 5 = .dict [] := rfl
  have hrb : rulesFold [c10Rule] defaultFlat = .ok (0, 0, false) := rfl
  have hb : batchFold [c10Rule] (scrape_many c10Fetch [5] 2023) =
      .ok c10St := by
    unfold batchFold
    rw [scrape_many_cons, scrape_many_nil]
    simp only [List.foldlM_cons, List.foldlM_nil, hf5,
      processFacility_emptyDict [c10Rule] _ hrb, exceptOk_bind,
      exceptPure_eq_ok, initAgg, c10St]
  exact avg_compliance_guarded c10Fetch [5] [c10Rule] c10St hb rfl

end Methane
